import Mathlib

/-!
Verification of the light-curve models and evidence lookup of the
How_to_be_a_Bayesian repository.

The two model functions in `code/Models.py` are pure elementwise maps over a
time array; we embed time arrays as `List ℝ` and the Python parameter dict as
an association list from `String` to `ℝ`, with dict access returning `Option`
(`none` models a KeyError).  `code/Utils.py`'s `GetEvidence` reads from the
filesystem; we embed the filesystem as an explicit structure giving directory
listings and (already tokenised) numeric file contents, and model numpy's
`loadtxt` result shapes (0-d scalar / 1-d vector / 2-d matrix) explicitly.
-/

namespace Bayesian

/-- A Python parameter dict: a mapping from parameter name to real value. -/
def Params := List (String × ℝ)

/-- Dict access `params[key]`: `some` value on hit; `none` models a KeyError. -/
def getParam (params : Params) (key : String) : Option ℝ :=
  (params.find? (fun kv => kv.1 == key)).map (fun kv => kv.2)

/-- Model A for the light curve, from `code/Models.py`:
`x = times / params['duration']; light_curve = params['amplitude']*np.exp(-x**2)`.
Elementwise over the time array; `none` when a key is missing. -/
noncomputable def ModelA_lightcurve (times : List ℝ) (params : Params) :
    Option (List ℝ) :=
  match getParam params "duration", getParam params "amplitude" with
  | some d, some a => some (times.map (fun t => a * Real.exp (-((t / d) ^ 2))))
  | _, _ => none

/-- Model B for the light curve, from `code/Models.py`:
`x = times / params['duration']; light_curve = params['amplitude'] / (1 + x**2)`.
Elementwise over the time array; `none` when a key is missing. -/
noncomputable def ModelB_lightcurve (times : List ℝ) (params : Params) :
    Option (List ℝ) :=
  match getParam params "duration", getParam params "amplitude" with
  | some d, some a => some (times.map (fun t => a / (1 + (t / d) ^ 2)))
  | _, _ => none

/-- A concrete parameter dict used to witness the model theorems. -/
noncomputable def paramsW : Params := [("amplitude", (2 : ℝ)), ("duration", (1 : ℝ))]

/-- Does `p` occur at the start of `l`? (character-level helper). -/
def startsWithChars : List Char → List Char → Bool
  | [], _ => true
  | _ :: _, [] => false
  | p :: ps, c :: cs => p == c && startsWithChars ps cs

/-- Does `pat` occur contiguously inside `l`? (character-level helper). -/
def charsContain (pat : List Char) : List Char → Bool
  | [] => startsWithChars pat []
  | c :: rest => startsWithChars pat (c :: rest) || charsContain pat rest

/-- Python's `pat in s` for strings: substring containment. -/
def strContains (s pat : String) : Bool :=
  charsContain pat.toList s.toList

/-- The state of the filesystem that `GetEvidence` reads: directory listings
(`os.listdir`) and the numeric contents of text files, already tokenised as
rows of whitespace-delimited numbers (what `np.loadtxt` parses them into). -/
structure FileSystem where
  dirs : List (String × List String)
  fileRows : List (String × List (List ℝ))

/-- `os.listdir folder`: `some` listing, or `none` when the directory does not
exist (Python raises FileNotFoundError). -/
def listdir (fs : FileSystem) (folder : String) : Option (List String) :=
  (fs.dirs.find? (fun kv => kv.1 == folder)).map (fun kv => kv.2)

/-- The numeric rows `np.loadtxt path` parses from the file at `path`; `none`
when the file does not exist. -/
def loadtxtRows (fs : FileSystem) (path : String) : Option (List (List ℝ)) :=
  (fs.fileRows.find? (fun kv => kv.1 == path)).map (fun kv => kv.2)

/-- The possible shapes of a `np.loadtxt` result: a 0-d scalar, a 1-d vector,
or a 2-d matrix. -/
inductive NpArr where
  | scalar (x : ℝ)
  | vec (v : List ℝ)
  | mat (m : List (List ℝ))

/-- numpy's `loadtxt` squeeze behaviour on the parsed rows: a single value
gives a 0-d scalar, a single row or a single column gives a 1-d vector,
anything else gives a 2-d matrix. -/
def squeezeLoad : List (List ℝ) → NpArr
  | [] => .vec []
  | [[x]] => .scalar x
  | [row] => .vec row
  | rows =>
    if rows.all (fun r => r.length == 1) then .vec (rows.filterMap List.head?)
    else .mat rows

/-- Indexing `arr[0]` on a `loadtxt` result: fails (IndexError) on a 0-d
scalar or an empty array, returns the first element of a 1-d vector, and the
first row of a 2-d matrix. -/
def index0 : NpArr → Option NpArr
  | .scalar _ => none
  | .vec v => v.head?.map .scalar
  | .mat m => m.head?.map .vec

/-- The error outcomes of `GetEvidence`: a filesystem (FileNotFoundError)
failure or an indexing (IndexError) failure. -/
inductive EvErr where
  | fileNotFound
  | indexError
deriving DecidableEq

/-- The folder path `'results/event' + str(eventID) + '_' + model + '/'`
built by `GetEvidence` in `code/Utils.py`. -/
def evFolder (eventID : ℕ) (model : String) : String :=
  "results/event" ++ toString eventID ++ "_" ++ model ++ "/"

/-- `GetEvidence` from `code/Utils.py`: list the results folder, take the
first file whose name contains `evidence.txt`, load it with `np.loadtxt` and
return element `[0]` of the result. -/
def GetEvidence (fs : FileSystem) (eventID : ℕ) (model : String := "A") :
    Except EvErr NpArr :=
  match listdir fs (evFolder eventID model) with
  | none => .error .fileNotFound
  | some files =>
    match files.filter (fun file => strContains file "evidence.txt") with
    | [] => .error .indexError
    | evidence_file :: _ =>
      match loadtxtRows fs (evFolder eventID model ++ evidence_file) with
      | none => .error .fileNotFound
      | some rows =>
        match index0 (squeezeLoad rows) with
        | none => .error .indexError
        | some v => .ok v

/-- The numeric rows `GetEvidence` would load: the pipeline of `GetEvidence`
up to and including the `np.loadtxt` call. -/
def loadedRows (fs : FileSystem) (eventID : ℕ) (model : String) :
    Option (List (List ℝ)) :=
  match listdir fs (evFolder eventID model) with
  | none => none
  | some files =>
    match files.filter (fun file => strContains file "evidence.txt") with
    | [] => none
    | evidence_file :: _ => loadtxtRows fs (evFolder eventID model ++ evidence_file)

/-- An array that is a sequence (1-d or 2-d, not a 0-d scalar) with at least
one element. -/
def isNonemptySeq : NpArr → Prop
  | .scalar _ => False
  | .vec v => v ≠ []
  | .mat m => m ≠ []

/-- An empty filesystem: every directory listing fails. -/
def fsEmpty : FileSystem := ⟨[], []⟩

/-- A filesystem whose results directory for event 2 has no file matching
`evidence.txt`. -/
def fsNoMatch : FileSystem := ⟨[("results/event2_A/", ["notes.txt"])], []⟩

/-- The prepared filesystem of the spec's `GetEvidence` example: directory
`results/event42_A/` holding `run1_evidence.txt` with content `3.14 0.01`. -/
noncomputable def fs42 : FileSystem :=
  ⟨[("results/event42_A/", ["run1_evidence.txt"])],
   [("results/event42_A/run1_evidence.txt", [[(3.14 : ℝ), (0.01 : ℝ)]])]⟩

/-- A filesystem whose evidence file for event 3 holds exactly one numeric
value, so `np.loadtxt` yields a 0-d scalar. -/
noncomputable def fsScalar : FileSystem :=
  ⟨[("results/event3_A/", ["run1_evidence.txt"])],
   [("results/event3_A/run1_evidence.txt", [[(2.5 : ℝ)]])]⟩

end Bayesian

namespace Bayesian

/-- **C1.** With keys `amplitude` and `duration` present and `duration ≠ 0`,
`ModelA_lightcurve` returns, elementwise, `amplitude * exp (-(t/duration)^2)`;
in particular at the single time `0` it returns `[amplitude]`. -/
theorem modelA_formula (times : List ℝ) (params : Params) (a d : ℝ)
    (ha : getParam params "amplitude" = some a)
    (hd : getParam params "duration" = some d) (hdne : d ≠ 0) :
    ModelA_lightcurve times params
      = some (times.map (fun t => a * Real.exp (-((t / d) ^ 2)))) ∧
    ModelA_lightcurve [0] params = some [a] := by
  unfold ModelA_lightcurve
  rw [ha, hd]
  refine ⟨rfl, ?_⟩
  simp

/-- Witness for C1 at `times = [0]`, `amplitude = 2`, `duration = 1`. -/
theorem modelA_formula_witness : ModelA_lightcurve [0] paramsW = some [(2 : ℝ)] :=
  (modelA_formula [0] paramsW 2 1 rfl rfl one_ne_zero).2

/-- **C2.** With keys `amplitude` and `duration` present and `duration ≠ 0`,
`ModelB_lightcurve` returns, elementwise, `amplitude / (1 + (t/duration)^2)`;
in particular at the single time `0` it returns `[amplitude]`. -/
theorem modelB_formula (times : List ℝ) (params : Params) (a d : ℝ)
    (ha : getParam params "amplitude" = some a)
    (hd : getParam params "duration" = some d) (hdne : d ≠ 0) :
    ModelB_lightcurve times params
      = some (times.map (fun t => a / (1 + (t / d) ^ 2))) ∧
    ModelB_lightcurve [0] params = some [a] := by
  unfold ModelB_lightcurve
  rw [ha, hd]
  refine ⟨rfl, ?_⟩
  simp

/-- Witness for C2 at `times = [0]`, `amplitude = 2`, `duration = 1`. -/
theorem modelB_formula_witness : ModelB_lightcurve [0] paramsW = some [(2 : ℝ)] :=
  (modelB_formula [0] paramsW 2 1 rfl rfl one_ne_zero).2

/-- **C4.** For every time array (size 0, 1 or N) and valid parameters (keys
present, `duration ≠ 0`), both models return a light curve whose length equals
the length of the input time array. -/
theorem lightcurve_length (times : List ℝ) (params : Params) (a d : ℝ)
    (ha : getParam params "amplitude" = some a)
    (hd : getParam params "duration" = some d) (hdne : d ≠ 0) :
    ∃ la lb, ModelA_lightcurve times params = some la ∧ la.length = times.length ∧
      ModelB_lightcurve times params = some lb ∧ lb.length = times.length := by
  unfold ModelA_lightcurve ModelB_lightcurve
  rw [ha, hd]
  exact ⟨_, _, rfl, List.length_map _ _, rfl, List.length_map _ _⟩

/-- Witness for C4 at a three-element time array. -/
theorem lightcurve_length_witness :
    ∃ la lb, ModelA_lightcurve [0, 1, 2] paramsW = some la ∧ la.length = 3 ∧
      ModelB_lightcurve [0, 1, 2] paramsW = some lb ∧ lb.length = 3 :=
  lightcurve_length [0, 1, 2] paramsW 2 1 rfl rfl one_ne_zero

/-- **C5.** With valid parameters (`duration ≠ 0`), both models are symmetric
about `t = 0`: evaluating at `[t]` and at `[-t]` yields the same result. -/
theorem lightcurve_symmetric (t : ℝ) (params : Params) (a d : ℝ)
    (ha : getParam params "amplitude" = some a)
    (hd : getParam params "duration" = some d) (hdne : d ≠ 0) :
    ModelA_lightcurve [t] params = ModelA_lightcurve [-t] params ∧
    ModelB_lightcurve [t] params = ModelB_lightcurve [-t] params := by
  unfold ModelA_lightcurve ModelB_lightcurve
  rw [ha, hd]
  constructor <;> simp [neg_div]

/-- Witness for C5 at `t = 1`. -/
theorem lightcurve_symmetric_witness :
    ModelA_lightcurve [1] paramsW = ModelA_lightcurve [-1] paramsW ∧
    ModelB_lightcurve [1] paramsW = ModelB_lightcurve [-1] paramsW :=
  lightcurve_symmetric 1 paramsW 2 1 rfl rfl one_ne_zero

/-- **C6.** For `0 ≤ t1 < t2`, positive amplitude and `duration ≠ 0`, the
Model A profile decays monotonically away from the peak:
`|ModelA_lightcurve [t2] p| ≤ |ModelA_lightcurve [t1] p|` elementwise. -/
theorem modelA_monotone_decay (t1 t2 : ℝ) (params : Params) (a d : ℝ)
    (ha : getParam params "amplitude" = some a)
    (hd : getParam params "duration" = some d) (hdne : d ≠ 0)
    (hapos : 0 < a) (ht1 : 0 ≤ t1) (ht12 : t1 < t2) :
    ∃ y1 y2, ModelA_lightcurve [t1] params = some [y1] ∧
      ModelA_lightcurve [t2] params = some [y2] ∧ |y2| ≤ |y1| := by
  unfold ModelA_lightcurve
  rw [ha, hd]
  refine ⟨_, _, rfl, rfl, ?_⟩
  have hd2 : (0 : ℝ) < d ^ 2 := by positivity
  have hsq : t1 ^ 2 ≤ t2 ^ 2 := pow_le_pow_left₀ ht1 ht12.le 2
  have hx : (t1 / d) ^ 2 ≤ (t2 / d) ^ 2 := by
    rw [div_pow, div_pow]
    gcongr
  have hexp : Real.exp (-((t2 / d) ^ 2)) ≤ Real.exp (-((t1 / d) ^ 2)) :=
    Real.exp_le_exp.2 (neg_le_neg hx)
  have h1 : (0 : ℝ) < a * Real.exp (-((t1 / d) ^ 2)) := by positivity
  have h2 : (0 : ℝ) < a * Real.exp (-((t2 / d) ^ 2)) := by positivity
  rw [abs_of_pos h1, abs_of_pos h2]
  exact mul_le_mul_of_nonneg_left hexp hapos.le

/-- Witness for C6 at `t1 = 0`, `t2 = 1`. -/
theorem modelA_monotone_decay_witness :
    ∃ y1 y2, ModelA_lightcurve [0] paramsW = some [y1] ∧
      ModelA_lightcurve [1] paramsW = some [y2] ∧ |y2| ≤ |y1| :=
  modelA_monotone_decay 0 1 paramsW 2 1 rfl rfl one_ne_zero two_pos le_rfl one_pos

/-- **C8.** If the parameter mapping lacks the key `amplitude` or the key
`duration`, both models fail with a missing-key error (return `none`). -/
theorem lightcurve_missing_key (times : List ℝ) (params : Params)
    (h : getParam params "amplitude" = none ∨ getParam params "duration" = none) :
    ModelA_lightcurve times params = none ∧ ModelB_lightcurve times params = none := by
  cases hA : getParam params "amplitude" <;> cases hD : getParam params "duration" <;>
    simp_all [ModelA_lightcurve, ModelB_lightcurve]

/-- Witness for C8 with a dict lacking the `duration` key. -/
theorem lightcurve_missing_key_witness :
    ModelA_lightcurve [0] [("amplitude", (1 : ℝ))] = none ∧
    ModelB_lightcurve [0] [("amplitude", (1 : ℝ))] = none :=
  lightcurve_missing_key [0] [("amplitude", (1 : ℝ))] (Or.inr rfl)

/-- When the directory listing succeeds, a matching file is found and the
file loads, `GetEvidence` is the indexing of the squeezed loaded rows. -/
theorem getEvidence_pipeline (fs : FileSystem) (eventID : ℕ) (model : String)
    (files : List String) (ef : String) (rest : List String) (rows : List (List ℝ))
    (h1 : listdir fs (evFolder eventID model) = some files)
    (h2 : files.filter (fun file => strContains file "evidence.txt") = ef :: rest)
    (h3 : loadtxtRows fs (evFolder eventID model ++ ef) = some rows) :
    GetEvidence fs eventID model
      = match index0 (squeezeLoad rows) with
        | none => .error .indexError
        | some v => .ok v := by
  simp only [GetEvidence, h1, h2, h3]

/-- If `index0` succeeds on an array, that array is a nonempty sequence. -/
theorem isNonemptySeq_of_index0 {a v : NpArr} (h : index0 a = some v) :
    isNonemptySeq a := by
  cases a with
  | scalar x => simp [index0] at h
  | vec l =>
    cases l with
    | nil => simp [index0] at h
    | cons c cs => simp [isNonemptySeq]
  | mat m =>
    cases m with
    | nil => simp [index0] at h
    | cons r rs => simp [isNonemptySeq]

/-- **C3.** If directory `results/event42_A/` exists containing the file
`run1_evidence.txt` whose content parses as the row `3.14 0.01`, then
`GetEvidence 42 'A'` returns `3.14`, the first numeric value of the file. -/
theorem GetEvidence_event42 (fs : FileSystem)
    (hdir : listdir fs "results/event42_A/" = some ["run1_evidence.txt"])
    (hfile : loadtxtRows fs "results/event42_A/run1_evidence.txt"
      = some [[(3.14 : ℝ), (0.01 : ℝ)]]) :
    GetEvidence fs 42 "A" = .ok (.scalar 3.14) :=
  (getEvidence_pipeline fs 42 "A" ["run1_evidence.txt"] "run1_evidence.txt" []
    [[(3.14 : ℝ), (0.01 : ℝ)]] hdir rfl hfile).trans rfl

/-- Witness for C3 on the prepared filesystem `fs42`. -/
theorem GetEvidence_event42_witness : GetEvidence fs42 42 "A" = .ok (.scalar 3.14) :=
  GetEvidence_event42 fs42 rfl rfl

/-- **C9.** `GetEvidence` raises a filesystem error when the results
directory does not exist, and an index error when the directory exists but no
entry's name contains `evidence.txt`; in neither case does it return a value. -/
theorem GetEvidence_errors (fs : FileSystem) (eventID : ℕ) (model : String) :
    (listdir fs (evFolder eventID model) = none →
      GetEvidence fs eventID model = .error .fileNotFound) ∧
    (∀ files, listdir fs (evFolder eventID model) = some files →
      files.filter (fun file => strContains file "evidence.txt") = [] →
      GetEvidence fs eventID model = .error .indexError) := by
  constructor
  · intro h
    simp only [GetEvidence, h]
  · intro files h1 h2
    simp only [GetEvidence, h1, h2]

/-- Witness for C9: a missing directory for event 1 and a directory with no
matching file for event 2. -/
theorem GetEvidence_errors_witness :
    GetEvidence fsEmpty 1 "A" = .error .fileNotFound ∧
    GetEvidence fsNoMatch 2 "A" = .error .indexError :=
  ⟨(GetEvidence_errors fsEmpty 1 "A").1 rfl,
   (GetEvidence_errors fsNoMatch 2 "A").2 ["notes.txt"] rfl rfl⟩

/-- **C10.** If the matched evidence file holds exactly one numeric value (a
0-d scalar after loading), `GetEvidence` fails with an index error rather than
returning it; `GetEvidence` returns successfully only when the loaded data is
a sequence with at least one element. -/
theorem GetEvidence_scalar_load (fs : FileSystem) (eventID : ℕ) (model : String) :
    (∀ x : ℝ, loadedRows fs eventID model = some [[x]] →
      GetEvidence fs eventID model = .error .indexError) ∧
    (∀ v, GetEvidence fs eventID model = .ok v →
      ∃ rows, loadedRows fs eventID model = some rows ∧
        isNonemptySeq (squeezeLoad rows)) := by
  constructor
  · intro x h
    unfold loadedRows at h
    split at h
    · exact absurd h (by simp)
    · rename_i files h1
      split at h
      · exact absurd h (by simp)
      · rename_i ef rest h2
        exact (getEvidence_pipeline fs eventID model files ef rest [[x]]
          h1 h2 h).trans rfl
  · intro v h
    unfold GetEvidence at h
    split at h
    · exact absurd h (by simp)
    · rename_i files h1
      split at h
      · exact absurd h (by simp)
      · rename_i ef rest h2
        split at h
        · exact absurd h (by simp)
        · rename_i rows h3
          split at h
          · exact absurd h (by simp)
          · rename_i w h4
            refine ⟨rows, ?_, isNonemptySeq_of_index0 h4⟩
            simp only [loadedRows, h1, h2, h3]

/-- Witness for C10: the single-value evidence file of `fsScalar` makes
`GetEvidence` fail with an index error, and the successful lookup on `fs42`
loads a nonempty sequence. -/
theorem GetEvidence_scalar_load_witness :
    GetEvidence fsScalar 3 "A" = .error .indexError ∧
    ∃ rows, loadedRows fs42 42 "A" = some rows ∧ isNonemptySeq (squeezeLoad rows) :=
  ⟨(GetEvidence_scalar_load fsScalar 3 "A").1 (2.5 : ℝ) rfl,
   (GetEvidence_scalar_load fs42 42 "A").2 (.scalar 3.14) rfl⟩

end Bayesian
